import Mathlib

/-!
Verification of the rating-aggregation and review-integrity subsystem of the
RateMyOfficial repository (`server/storage.ts`, `DatabaseStorage`), shallowly
embedded in Lean 4.

Database tables become Lean lists of records (list order = table/select
order); the drizzle query combinators (`select`, `filter`-like `where`,
`innerJoin`, `update ... set`, `delete`) become the corresponding pure list
operations; each storage method becomes a pure function from the database
state (and its inputs, plus the server-assigned values `now`/fresh ids) to
the new state, returning `Except`-style results where the method can throw.
SQL `integer` columns are modelled as `Nat`: every value the modelled
operations ever store in them is a count or a `Math.round` of a nonnegative
mean, and review scores are validated to [1,5] at the schema boundary.
`Math.round` on a nonnegative rational `s / c` (half rounds up) is
`(2*s + c) / (2*c)` in natural-number division; see `jsRound` and
`jsRound_eq_floor`.
-/

namespace RateMyOfficial

/-- Row of the `users` table (the columns the subsystem reads: the join key
`id` and the summary columns `getReviewsForOfficial` selects). -/
structure User where
  id : Nat
  firstName : String
  lastName : String
  userType : String
  photoUrl : Option String
deriving DecidableEq, Repr

/-- Row of the `officials` table. -/
structure Official where
  id : Nat
  firstName : String
  lastName : String
  age : Nat
  location : String
  association : String
  yearsExperience : Nat
  photoUrl : Option String
  averageRating : Nat
  totalReviews : Nat
deriving DecidableEq, Repr

/-- Row of the `events` table (the columns the subsystem reads). -/
structure Event where
  id : Nat
  name : String
  date : Nat
deriving DecidableEq, Repr

/-- Row of the `event_officials` assignment table. -/
structure EventOfficial where
  id : Nat
  eventId : Nat
  officialId : Nat
  role : Option String
deriving DecidableEq, Repr

/-- Row of the `event_teams` assignment table. -/
structure EventTeam where
  id : Nat
  eventId : Nat
  teamId : Nat
deriving DecidableEq, Repr

/-- Row of the `reviews` table.  `date` is the creation timestamp (epoch). -/
structure Review where
  id : Nat
  officialId : Nat
  userId : Nat
  eventId : Nat
  mechanics : Nat
  professionalism : Nat
  positioning : Nat
  stalling : Nat
  consistency : Nat
  appearance : Nat
  comment : String
  date : Nat
  isReported : Bool
  isAnonymous : Bool
deriving DecidableEq, Repr

/-- The database state: the tables the subsystem touches. -/
@[ext]
structure DB where
  officials : List Official
  users : List User
  events : List Event
  eventOfficials : List EventOfficial
  eventTeams : List EventTeam
  reviews : List Review
deriving DecidableEq, Repr

/-- The `CategoryAverages` record of `storage.ts`. -/
structure CategoryAverages where
  mechanics : Nat
  professionalism : Nat
  positioning : Nat
  stalling : Nat
  consistency : Nat
  appearance : Nat
  overall : Nat
deriving DecidableEq, Repr

/-- Errors thrown by the storage layer (`throw new Error(...)` sites of the
review ledger). -/
inductive StorageError where
  | duplicateReview
  | officialNotAssigned
  | reviewNotFound
deriving DecidableEq, Repr

/-- Embedding of `Math.round (s / c)` for natural `s` and positive natural `c`:
JavaScript rounds half up, i.e. `⌊s/c + 1/2⌋ = ⌊(2s+c)/(2c)⌋`. -/
def jsRound (s c : Nat) : Nat := (2 * s + c) / (2 * c)

/-- Embeds `DatabaseStorage.getOfficials` — paginated select over `officials`
(default page 1, default limit 20) plus the total row count. -/
def getOfficials (db : DB) (page : Nat := 1) (limit : Nat := 20) :
    List Official × Nat :=
  (((db.officials).drop ((page - 1) * limit)).take limit, db.officials.length)

/-- Embeds `DatabaseStorage.getOfficialById` — first `officials` row with this id. -/
def getOfficialById (db : DB) (id : Nat) : Option Official :=
  db.officials.find? (fun o => o.id == id)

/-- Input to `createOfficial` (the `InsertOfficial` shape). -/
structure InsertOfficial where
  firstName : String
  lastName : String
  age : Nat
  location : String
  association : String
  yearsExperience : Nat
  photoUrl : Option String
deriving DecidableEq, Repr

/-- Embeds `DatabaseStorage.createOfficial` — inserts a row with
`averageRating = 0`, `totalReviews = 0`; `newId` is the serial id the
store assigns. -/
def createOfficial (db : DB) (official : InsertOfficial) (newId : Nat) :
    DB × Official :=
  let newOfficial : Official :=
    { id := newId
      firstName := official.firstName
      lastName := official.lastName
      age := official.age
      location := official.location
      association := official.association
      yearsExperience := official.yearsExperience
      photoUrl := official.photoUrl.map (fun u => "/" ++ u)
      averageRating := 0
      totalReviews := 0 }
  ({ db with officials := db.officials ++ [newOfficial] }, newOfficial)

/-- Embeds `DatabaseStorage.getReviewsForOfficial` — reviews of this official inner
joined to `users` (on `reviews.userId = users.id`) and to `events` (on
`reviews.eventId = events.id`): a review row survives iff a matching user
row and a matching event row exist (ids are primary keys, so at most one row
each matches).  The source orders the result by review date descending and
attaches the joined user/event summary columns; neither affects any
aggregate computed from the rows, and the embedding returns the review rows
in table order. -/
def getReviewsForOfficial (db : DB) (officialId : Nat) : List Review :=
  db.reviews.filter (fun r =>
    r.officialId == officialId
      && db.users.any (fun u => u.id == r.userId)
      && db.events.any (fun e => e.id == r.eventId))

/-- The accumulator of the `reduce` inside `calculateCategoryAverages`. -/
structure Sums where
  mechanics : Nat
  professionalism : Nat
  positioning : Nat
  stalling : Nat
  consistency : Nat
  appearance : Nat
deriving DecidableEq, Repr

/-- The `reduce` step of `calculateCategoryAverages`. -/
def sumStep (acc : Sums) (review : Review) : Sums :=
  { mechanics := acc.mechanics + review.mechanics
    professionalism := acc.professionalism + review.professionalism
    positioning := acc.positioning + review.positioning
    stalling := acc.stalling + review.stalling
    consistency := acc.consistency + review.consistency
    appearance := acc.appearance + review.appearance }

/-- Embeds `DatabaseStorage.calculateCategoryAverages` — zero record when the
official has no (joined) reviews; otherwise per-category
`Math.round(sum / count)` and `overall = Math.round((sum of the six rounded
category averages) / 6)`. -/
def calculateCategoryAverages (db : DB) (officialId : Nat) :
    CategoryAverages :=
  let reviews := getReviewsForOfficial db officialId
  if reviews.length = 0 then
    { mechanics := 0, professionalism := 0, positioning := 0, stalling := 0
      consistency := 0, appearance := 0, overall := 0 }
  else
    let sums := reviews.foldl sumStep
      { mechanics := 0, professionalism := 0, positioning := 0
        stalling := 0, consistency := 0, appearance := 0 }
    let count := reviews.length
    let mechanics := jsRound sums.mechanics count
    let professionalism := jsRound sums.professionalism count
    let positioning := jsRound sums.positioning count
    let stalling := jsRound sums.stalling count
    let consistency := jsRound sums.consistency count
    let appearance := jsRound sums.appearance count
    let overall := jsRound
      (mechanics + professionalism + positioning + stalling
        + consistency + appearance) 6
    { mechanics := mechanics, professionalism := professionalism
      positioning := positioning, stalling := stalling
      consistency := consistency, appearance := appearance
      overall := overall }

/-- Embeds `DatabaseStorage.updateOfficialRating` — recomputes the averages and
persists `averageRating := overall`, `totalReviews := review count` on the
official row with this id (zero rows affected when the id is absent). -/
def updateOfficialRating (db : DB) (id : Nat) : DB :=
  let averages := calculateCategoryAverages db id
  let reviews := getReviewsForOfficial db id
  { db with
    officials := db.officials.map (fun o =>
      if o.id == id then
        { o with averageRating := averages.overall
                 totalReviews := reviews.length }
      else o) }

/-- Embeds `DatabaseStorage.deleteOfficial` — deletes the official's assignment
rows, then its reviews, then the official row. -/
def deleteOfficial (db : DB) (id : Nat) : DB :=
  { db with
    eventOfficials := db.eventOfficials.filter (fun eo => eo.officialId != id)
    reviews := db.reviews.filter (fun r => r.officialId != id)
    officials := db.officials.filter (fun o => o.id != id) }

/-- Input to `createReview` (the `InsertReview` shape plus the session
`userId` the route attaches). -/
structure InsertReview where
  officialId : Nat
  eventId : Nat
  userId : Nat
  mechanics : Nat
  professionalism : Nat
  positioning : Nat
  stalling : Nat
  consistency : Nat
  appearance : Nat
  comment : Option String
  isAnonymous : Bool
deriving DecidableEq, Repr

/-- Embeds `DatabaseStorage.createReview` — throws `duplicateReview` when a review
by this user for this official and event already exists; otherwise throws
`officialNotAssigned` when no `event_officials` row links the official to
the event; otherwise inserts the review (server-assigned timestamp `now`,
serial id `newId`, `isReported := false`) and re-aggregates the official.
Both checks precede the first write, so an error leaves the state exactly
as given.  The state is returned alongside the thrown/returned value. -/
def createReview (db : DB) (review : InsertReview) (now newId : Nat) :
    DB × Except StorageError Review :=
  let existingReview := db.reviews.filter (fun r =>
    r.userId == review.userId
      && r.officialId == review.officialId
      && r.eventId == review.eventId)
  if existingReview.length > 0 then
    (db, .error .duplicateReview)
  else
    let officialEvent := db.eventOfficials.filter (fun eo =>
      eo.officialId == review.officialId && eo.eventId == review.eventId)
    if officialEvent.length = 0 then
      (db, .error .officialNotAssigned)
    else
      let newReview : Review :=
        { id := newId
          officialId := review.officialId
          userId := review.userId
          eventId := review.eventId
          mechanics := review.mechanics
          professionalism := review.professionalism
          positioning := review.positioning
          stalling := review.stalling
          consistency := review.consistency
          appearance := review.appearance
          comment := review.comment.getD ""
          date := now
          isReported := false
          isAnonymous := review.isAnonymous }
      let db1 := { db with reviews := db.reviews ++ [newReview] }
      let db2 := updateOfficialRating db1 review.officialId
      (db2, .ok newReview)

/-- Embeds `DatabaseStorage.reportReview` — sets `isReported := true` on the review
row with this id; nothing else is touched and no re-aggregation happens. -/
def reportReview (db : DB) (id : Nat) : DB :=
  { db with
    reviews := db.reviews.map (fun r =>
      if r.id == id then { r with isReported := true } else r) }

/-- Embeds `DatabaseStorage.deleteReview` — throws `reviewNotFound` when no review
row has this id; otherwise deletes the row and re-aggregates the affected
official. -/
def deleteReview (db : DB) (id : Nat) : DB × Except StorageError Unit :=
  match db.reviews.find? (fun r => r.id == id) with
  | none => (db, .error .reviewNotFound)
  | some review =>
    let db1 := { db with reviews := db.reviews.filter (fun r => r.id != id) }
    (updateOfficialRating db1 review.officialId, .ok ())

/-- Embeds `DatabaseStorage.deleteUser` — deletes the user's reviews, then the user
row.  No rating refresh is performed. -/
def deleteUser (db : DB) (userId : Nat) : DB :=
  { db with
    reviews := db.reviews.filter (fun r => r.userId != userId)
    users := db.users.filter (fun u => u.id != userId) }

/-- Embeds `DatabaseStorage.deleteEvent` — deletes the event's official
assignments, team assignments and reviews, then the event row.  No rating
refresh is performed. -/
def deleteEvent (db : DB) (id : Nat) : DB :=
  { db with
    eventOfficials := db.eventOfficials.filter (fun eo => eo.eventId != id)
    eventTeams := db.eventTeams.filter (fun et => et.eventId != id)
    reviews := db.reviews.filter (fun r => r.eventId != id)
    events := db.events.filter (fun e => e.id != id) }

/-- The `for` loop of `refreshAllOfficialRatings`.  `fails` is a failure
oracle: `fails o.id = true` models the awaited single-official recompute
throwing (a transient storage error) before its write lands.  The loop body
has no error handling, so the first failure escapes the loop; the returned
flag is `true` iff the loop ran to completion. -/
def refreshAllGo (fails : Nat → Bool) : List Official → DB → DB × Bool
  | [], db => (db, true)
  | o :: rest, db =>
    if fails o.id then (db, false)
    else refreshAllGo fails rest (updateOfficialRating db o.id)

/-- Embeds `DatabaseStorage.refreshAllOfficialRatings` — fetches
`this.getOfficials()` with default pagination (page 1, limit 20) and runs
the single-official recompute over that page; the surrounding `try/catch`
logs and rethrows, so a failure aborts the batch. -/
def refreshAllOfficialRatings (fails : Nat → Bool) (db : DB) : DB × Bool :=
  refreshAllGo fails (getOfficials db).1 db

/-- Sum of one category's scores over an official's joined reviews. -/
def categorySum (db : DB) (officialId : Nat) (f : Review → Nat) : Nat :=
  ((getReviewsForOfficial db officialId).map f).sum

/-- Number of joined reviews of an official. -/
def reviewCount (db : DB) (officialId : Nat) : Nat :=
  (getReviewsForOfficial db officialId).length

/-- All review rows of the state carry category scores in [1,5] (the
`insertReviewSchema` validation contract). -/
def ScoresValid (db : DB) : Prop :=
  ∀ r ∈ db.reviews,
    (1 ≤ r.mechanics ∧ r.mechanics ≤ 5)
    ∧ (1 ≤ r.professionalism ∧ r.professionalism ≤ 5)
    ∧ (1 ≤ r.positioning ∧ r.positioning ≤ 5)
    ∧ (1 ≤ r.stalling ∧ r.stalling ≤ 5)
    ∧ (1 ≤ r.consistency ∧ r.consistency ≤ 5)
    ∧ (1 ≤ r.appearance ∧ r.appearance ≤ 5)

/-- A `createReview` input whose category scores are in [1,5]. -/
def InsertScoresValid (i : InsertReview) : Prop :=
  (1 ≤ i.mechanics ∧ i.mechanics ≤ 5)
  ∧ (1 ≤ i.professionalism ∧ i.professionalism ≤ 5)
  ∧ (1 ≤ i.positioning ∧ i.positioning ≤ 5)
  ∧ (1 ≤ i.stalling ∧ i.stalling ≤ 5)
  ∧ (1 ≤ i.consistency ∧ i.consistency ≤ 5)
  ∧ (1 ≤ i.appearance ∧ i.appearance ≤ 5)

/-- Every official row carries `averageRating ≤ 5` (the spec's
`averageRating : int[0,5]`; the lower bound and `totalReviews ≥ 0` hold by
the `Nat` type). -/
def RatingInvariant (db : DB) : Prop :=
  ∀ o ∈ db.officials, o.averageRating ≤ 5

instance (db : DB) : Decidable (ScoresValid db) := by
  unfold ScoresValid
  infer_instance

instance (i : InsertReview) : Decidable (InsertScoresValid i) := by
  unfold InsertScoresValid
  infer_instance

instance (db : DB) : Decidable (RatingInvariant db) := by
  unfold RatingInvariant
  infer_instance

/-- The row transformer of the `update ... set ... where id` statement of
`updateOfficialRating` (proof-side name for the anonymous function). -/
def setRating (id v t : Nat) (o : Official) : Official :=
  if o.id == id then { o with averageRating := v, totalReviews := t } else o

/-! ### Concrete states used as witnesses and counterexamples -/

/-- An official row with given id and cached rating fields. -/
def sampleOfficial (id rating total : Nat) : Official :=
  { id := id, firstName := "Jane", lastName := "Doe", age := 40
    location := "PA", association := "D11", yearsExperience := 10
    photoUrl := none, averageRating := rating, totalReviews := total }

/-- A user row with given id. -/
def sampleUser (id : Nat) : User :=
  { id := id, firstName := "Pat", lastName := "Lee", userType := "Coach"
    photoUrl := none }

/-- An event row with given id. -/
def sampleEvent (id : Nat) : Event :=
  { id := id, name := "Duals", date := 0 }

/-- A review row with given keys and category scores. -/
def sampleReview (id officialId userId eventId m p po st co ap : Nat) :
    Review :=
  { id := id, officialId := officialId, userId := userId, eventId := eventId
    mechanics := m, professionalism := p, positioning := po, stalling := st
    consistency := co, appearance := ap, comment := "", date := 0
    isReported := false, isAnonymous := false }

/-- Two officials, no reviews; official 2 carries stale cached fields. -/
def dbC1 : DB :=
  { officials := [sampleOfficial 1 0 0, sampleOfficial 2 5 1]
    users := [], events := [], eventOfficials := [], eventTeams := []
    reviews := [] }

/-- Twenty-one officials, all with stale cached fields, no reviews. -/
def dbC1b : DB :=
  { officials := (List.range 21).map (fun i => sampleOfficial (i + 1) 5 1)
    users := [], events := [], eventOfficials := [], eventTeams := []
    reviews := [] }

/-- One official with one review by user 1 at event 1 and up-to-date cached
fields (`averageRating = 3`, `totalReviews = 1`). -/
def dbC2 : DB :=
  { officials := [sampleOfficial 1 3 1]
    users := [sampleUser 1]
    events := [sampleEvent 1]
    eventOfficials := [{ id := 1, eventId := 1, officialId := 1, role := none }]
    eventTeams := []
    reviews := [sampleReview 1 1 1 1 3 3 3 3 3 3] }

/-- One official with one review scoring (4,4,4,4,4,5): the rounded category
averages are {4,4,4,4,4,5} and the two-stage overall is 4. -/
def dbW : DB :=
  { officials := [sampleOfficial 1 0 0]
    users := [sampleUser 1]
    events := [sampleEvent 1]
    eventOfficials := [{ id := 1, eventId := 1, officialId := 1, role := none }]
    eventTeams := []
    reviews := [sampleReview 1 1 1 1 4 4 4 4 4 5] }

/-- An official with one review row whose user row no longer exists: the
join of `getReviewsForOfficial` excludes it, so the valid review set is
empty. -/
def dbW6 : DB :=
  { officials := [sampleOfficial 1 2 1]
    users := []
    events := [sampleEvent 1]
    eventOfficials := [{ id := 1, eventId := 1, officialId := 1, role := none }]
    eventTeams := []
    reviews := [sampleReview 1 1 1 1 2 2 2 2 2 2] }

/-- A state where user 1 already reviewed official 1 at event 1 AND no
assignment row links official 1 to event 1 (both `createReview`
preconditions fail at once, exposing the check order). -/
def dbW4 : DB :=
  { officials := [sampleOfficial 1 3 1]
    users := [sampleUser 1]
    events := [sampleEvent 1]
    eventOfficials := []
    eventTeams := []
    reviews := [sampleReview 1 1 1 1 3 3 3 3 3 3] }

/-- The duplicate submission for `dbW4`. -/
def inputW4 : InsertReview :=
  { officialId := 1, eventId := 1, userId := 1
    mechanics := 5, professionalism := 5, positioning := 5, stalling := 5
    consistency := 5, appearance := 5, comment := none, isAnonymous := false }

/-! ### Arithmetic and list lemmas -/

theorem jsRound_eq_floor (s c : Nat) (hc : 0 < c) :
    jsRound s c = ⌊((s : ℚ) / (c : ℚ) + 1 / 2)⌋₊ := by
  have hc' : (c : ℚ) ≠ 0 := Nat.cast_ne_zero.mpr hc.ne'
  have key : ((s : ℚ) / (c : ℚ) + 1 / 2)
      = (((2 * s + c : Nat) : ℚ) / ((2 * c : Nat) : ℚ)) := by
    push_cast
    field_simp
    ring
  rw [key, Nat.floor_div_eq_div]
  rfl

theorem one_le_jsRound (s c : Nat) (hc : 0 < c) (h : c ≤ s) :
    1 ≤ jsRound s c := by
  unfold jsRound
  rw [Nat.le_div_iff_mul_le (by omega : 0 < 2 * c)]
  omega

theorem jsRound_le_five (s c : Nat) (hc : 0 < c) (h : s ≤ 5 * c) :
    jsRound s c ≤ 5 := by
  unfold jsRound
  have h6 : (2 * s + c) / (2 * c) < 6 := by
    rw [Nat.div_lt_iff_lt_mul (by omega : 0 < 2 * c)]
    omega
  omega

theorem foldl_sumStep (rs : List Review) (acc : Sums) :
    rs.foldl sumStep acc =
      ⟨acc.mechanics + (rs.map Review.mechanics).sum,
       acc.professionalism + (rs.map Review.professionalism).sum,
       acc.positioning + (rs.map Review.positioning).sum,
       acc.stalling + (rs.map Review.stalling).sum,
       acc.consistency + (rs.map Review.consistency).sum,
       acc.appearance + (rs.map Review.appearance).sum⟩ := by
  induction rs generalizing acc with
  | nil => simp
  | cons r rs ih => simp [sumStep, ih, Nat.add_assoc]

theorem length_le_sum_map (rs : List Review) (f : Review → Nat)
    (h : ∀ r ∈ rs, 1 ≤ f r) : rs.length ≤ (rs.map f).sum := by
  induction rs with
  | nil => simp
  | cons r rs ih =>
    have h1 := h r (by simp)
    have h2 := ih (fun x hx => h x (by simp [hx]))
    simp only [List.map_cons, List.sum_cons, List.length_cons]
    omega

theorem sum_map_le_five_mul (rs : List Review) (f : Review → Nat)
    (h : ∀ r ∈ rs, f r ≤ 5) : (rs.map f).sum ≤ 5 * rs.length := by
  induction rs with
  | nil => simp
  | cons r rs ih =>
    have h1 := h r (by simp)
    have h2 := ih (fun x hx => h x (by simp [hx]))
    simp only [List.map_cons, List.sum_cons, List.length_cons]
    omega

theorem find?_map_of_pred_invariant {p : Official → Bool}
    (g : Official → Official) (hg : ∀ o, p (g o) = p o) (l : List Official) :
    (l.map g).find? p = (l.find? p).map g := by
  induction l with
  | nil => rfl
  | cons o l ih =>
    simp only [List.map_cons, List.find?]
    rw [hg o]
    cases hp : p o
    · simpa [hp] using ih
    · simp [hp]

/-! ### Characterizations of the aggregator -/

theorem calculateCategoryAverages_of_empty (db : DB) (officialId : Nat)
    (h : getReviewsForOfficial db officialId = []) :
    calculateCategoryAverages db officialId = ⟨0, 0, 0, 0, 0, 0, 0⟩ := by
  simp [calculateCategoryAverages, h]

theorem calculateCategoryAverages_of_nonempty (db : DB) (officialId : Nat)
    (h : getReviewsForOfficial db officialId ≠ []) :
    calculateCategoryAverages db officialId =
      ⟨jsRound (categorySum db officialId Review.mechanics)
         (reviewCount db officialId),
       jsRound (categorySum db officialId Review.professionalism)
         (reviewCount db officialId),
       jsRound (categorySum db officialId Review.positioning)
         (reviewCount db officialId),
       jsRound (categorySum db officialId Review.stalling)
         (reviewCount db officialId),
       jsRound (categorySum db officialId Review.consistency)
         (reviewCount db officialId),
       jsRound (categorySum db officialId Review.appearance)
         (reviewCount db officialId),
       jsRound
         (jsRound (categorySum db officialId Review.mechanics)
            (reviewCount db officialId)
          + jsRound (categorySum db officialId Review.professionalism)
              (reviewCount db officialId)
          + jsRound (categorySum db officialId Review.positioning)
              (reviewCount db officialId)
          + jsRound (categorySum db officialId Review.stalling)
              (reviewCount db officialId)
          + jsRound (categorySum db officialId Review.consistency)
              (reviewCount db officialId)
          + jsRound (categorySum db officialId Review.appearance)
              (reviewCount db officialId)) 6⟩ := by
  have hlen : (getReviewsForOfficial db officialId).length ≠ 0 := by
    simpa [List.length_eq_zero] using h
  simp [calculateCategoryAverages, hlen, foldl_sumStep, categorySum,
    reviewCount]

theorem getReviewsForOfficial_updateOfficialRating (db : DB)
    (id officialId : Nat) :
    getReviewsForOfficial (updateOfficialRating db id) officialId
      = getReviewsForOfficial db officialId := rfl

theorem calculateCategoryAverages_updateOfficialRating (db : DB)
    (id officialId : Nat) :
    calculateCategoryAverages (updateOfficialRating db id) officialId
      = calculateCategoryAverages db officialId := rfl

theorem getOfficialById_updateOfficialRating (db : DB) (id : Nat) :
    getOfficialById (updateOfficialRating db id) id
      = (getOfficialById db id).map (fun o =>
          { o with
            averageRating := (calculateCategoryAverages db id).overall
            totalReviews := reviewCount db id }) := by
  unfold getOfficialById updateOfficialRating
  rw [find?_map_of_pred_invariant
    (fun o => if o.id == id then
      { o with averageRating := (calculateCategoryAverages db id).overall
               totalReviews := (getReviewsForOfficial db id).length }
     else o)
    (by intro o; by_cases ho : o.id == id <;> simp [ho])]
  cases hfind : db.officials.find? (fun o => o.id == id) with
  | none => rfl
  | some o =>
    have ho : (o.id == id) = true := List.find?_some (p := fun o : Official => o.id == id) hfind
    have ho' : o.id = id := by simpa using ho
    simp [ho', reviewCount]

theorem mem_reviews_of_mem_getReviewsForOfficial {db : DB}
    {officialId : Nat} {r : Review}
    (h : r ∈ getReviewsForOfficial db officialId) : r ∈ db.reviews :=
  List.mem_of_mem_filter h

theorem calculateCategoryAverages_bounds (db : DB) (officialId : Nat)
    (hs : ScoresValid db) (hne : getReviewsForOfficial db officialId ≠ []) :
    (1 ≤ (calculateCategoryAverages db officialId).mechanics
      ∧ (calculateCategoryAverages db officialId).mechanics ≤ 5)
    ∧ (1 ≤ (calculateCategoryAverages db officialId).professionalism
      ∧ (calculateCategoryAverages db officialId).professionalism ≤ 5)
    ∧ (1 ≤ (calculateCategoryAverages db officialId).positioning
      ∧ (calculateCategoryAverages db officialId).positioning ≤ 5)
    ∧ (1 ≤ (calculateCategoryAverages db officialId).stalling
      ∧ (calculateCategoryAverages db officialId).stalling ≤ 5)
    ∧ (1 ≤ (calculateCategoryAverages db officialId).consistency
      ∧ (calculateCategoryAverages db officialId).consistency ≤ 5)
    ∧ (1 ≤ (calculateCategoryAverages db officialId).appearance
      ∧ (calculateCategoryAverages db officialId).appearance ≤ 5)
    ∧ (1 ≤ (calculateCategoryAverages db officialId).overall
      ∧ (calculateCategoryAverages db officialId).overall ≤ 5) := by
  have hc : 0 < reviewCount db officialId :=
    List.length_pos.mpr hne
  have hfield : ∀ f : Review → Nat,
      (∀ r ∈ getReviewsForOfficial db officialId, 1 ≤ f r ∧ f r ≤ 5) →
      1 ≤ jsRound (categorySum db officialId f) (reviewCount db officialId)
        ∧ jsRound (categorySum db officialId f) (reviewCount db officialId)
            ≤ 5 := by
    intro f hf
    exact ⟨one_le_jsRound _ _ hc
        (length_le_sum_map _ f (fun r hr => (hf r hr).1)),
      jsRound_le_five _ _ hc
        (sum_map_le_five_mul _ f (fun r hr => (hf r hr).2))⟩
  have hv : ∀ r ∈ getReviewsForOfficial db officialId,
      (1 ≤ r.mechanics ∧ r.mechanics ≤ 5)
      ∧ (1 ≤ r.professionalism ∧ r.professionalism ≤ 5)
      ∧ (1 ≤ r.positioning ∧ r.positioning ≤ 5)
      ∧ (1 ≤ r.stalling ∧ r.stalling ≤ 5)
      ∧ (1 ≤ r.consistency ∧ r.consistency ≤ 5)
      ∧ (1 ≤ r.appearance ∧ r.appearance ≤ 5) :=
    fun r hr => hs r (mem_reviews_of_mem_getReviewsForOfficial hr)
  have hm := hfield Review.mechanics (fun r hr => (hv r hr).1)
  have hp := hfield Review.professionalism (fun r hr => (hv r hr).2.1)
  have hpo := hfield Review.positioning (fun r hr => (hv r hr).2.2.1)
  have hst := hfield Review.stalling (fun r hr => (hv r hr).2.2.2.1)
  have hco := hfield Review.consistency (fun r hr => (hv r hr).2.2.2.2.1)
  have hap := hfield Review.appearance (fun r hr => (hv r hr).2.2.2.2.2)
  rw [calculateCategoryAverages_of_nonempty db officialId hne]
  refine ⟨hm, hp, hpo, hst, hco, hap, ?_, ?_⟩
  · exact one_le_jsRound _ _ (by omega) (by omega)
  · exact jsRound_le_five _ _ (by omega) (by omega)

/-! ### Lemmas about `reportReview` -/

theorem reportFlag_preserves_keys (rid : Nat) (r : Review) :
    ((if r.id == rid then { r with isReported := true } else r).officialId
        = r.officialId)
    ∧ ((if r.id == rid then { r with isReported := true } else r).userId
        = r.userId)
    ∧ ((if r.id == rid then { r with isReported := true } else r).eventId
        = r.eventId) := by
  by_cases h : r.id == rid <;> simp [h]

theorem getReviewsForOfficial_reportReview (db : DB) (rid officialId : Nat) :
    getReviewsForOfficial (reportReview db rid) officialId
      = (getReviewsForOfficial db officialId).map
          (fun r => if r.id == rid then { r with isReported := true } else r) := by
  unfold getReviewsForOfficial reportReview
  rw [List.filter_map]
  congr 1
  apply List.filter_congr
  intro r _
  have h := reportFlag_preserves_keys rid r
  simp only [Function.comp_apply, h.1, h.2.1, h.2.2]

theorem categorySum_reportReview (db : DB) (rid officialId : Nat)
    (f : Review → Nat) (hf : ∀ r : Review, f { r with isReported := true } = f r) :
    categorySum (reportReview db rid) officialId f
      = categorySum db officialId f := by
  unfold categorySum
  have hfun : (f ∘ fun r : Review =>
      if r.id == rid then { r with isReported := true } else r) = f := by
    funext r
    simp only [Function.comp_apply]
    by_cases h : r.id = rid
    · rw [if_pos (by simpa using h)]
      exact hf r
    · rw [if_neg (by simpa using h)]
  rw [getReviewsForOfficial_reportReview, List.map_map, hfun]

theorem reviewCount_reportReview (db : DB) (rid officialId : Nat) :
    reviewCount (reportReview db rid) officialId
      = reviewCount db officialId := by
  unfold reviewCount
  rw [getReviewsForOfficial_reportReview, List.length_map]

theorem calculateCategoryAverages_reportReview (db : DB)
    (rid officialId : Nat) :
    calculateCategoryAverages (reportReview db rid) officialId
      = calculateCategoryAverages db officialId := by
  by_cases h : getReviewsForOfficial db officialId = []
  · rw [calculateCategoryAverages_of_empty db officialId h,
      calculateCategoryAverages_of_empty (reportReview db rid) officialId
        (by rw [getReviewsForOfficial_reportReview, h]; rfl)]
  · have h' : getReviewsForOfficial (reportReview db rid) officialId ≠ [] := by
      rw [getReviewsForOfficial_reportReview]
      simpa using h
    rw [calculateCategoryAverages_of_nonempty db officialId h,
      calculateCategoryAverages_of_nonempty (reportReview db rid) officialId h',
      categorySum_reportReview db rid officialId Review.mechanics (fun _ => rfl),
      categorySum_reportReview db rid officialId Review.professionalism (fun _ => rfl),
      categorySum_reportReview db rid officialId Review.positioning (fun _ => rfl),
      categorySum_reportReview db rid officialId Review.stalling (fun _ => rfl),
      categorySum_reportReview db rid officialId Review.consistency (fun _ => rfl),
      categorySum_reportReview db rid officialId Review.appearance (fun _ => rfl),
      reviewCount_reportReview db rid officialId]

/-! ### Idempotence of the per-official update -/

theorem updateOfficialRating_eq (db : DB) (id : Nat) :
    updateOfficialRating db id
      = { db with
          officials := db.officials.map
            (setRating id ((calculateCategoryAverages db id).overall)
              (reviewCount db id)) } := rfl

theorem map_update_idem (l : List Official) (id v t : Nat) :
    (l.map (setRating id v t)).map (setRating id v t)
      = l.map (setRating id v t) := by
  rw [List.map_map]
  apply List.map_congr_left
  intro o _
  unfold Function.comp setRating
  by_cases h : o.id = id <;> simp [h]

/-! ### Invariant preservation helpers -/

theorem scoresValid_updateOfficialRating {db : DB} (id : Nat)
    (hs : ScoresValid db) : ScoresValid (updateOfficialRating db id) := hs

theorem ratingInvariant_updateOfficialRating {db : DB} (id : Nat)
    (hs : ScoresValid db) (hinv : RatingInvariant db) :
    RatingInvariant (updateOfficialRating db id) := by
  intro o' ho'
  obtain ⟨o, ho, rfl⟩ := List.mem_map.mp ho'
  by_cases h : o.id = id
  · rw [if_pos (by simpa using h)]
    by_cases hre : getReviewsForOfficial db id = []
    · simp [calculateCategoryAverages_of_empty db id hre]
    · exact ((calculateCategoryAverages_bounds db id hs hre).2.2.2.2.2.2).2
  · rw [if_neg (by simpa using h)]
    exact hinv o ho

theorem refreshAllGo_preserves (fails : Nat → Bool) (l : List Official) :
    ∀ db : DB, ScoresValid db → RatingInvariant db →
      ScoresValid (refreshAllGo fails l db).1
        ∧ RatingInvariant (refreshAllGo fails l db).1 := by
  induction l with
  | nil => exact fun db hs hinv => ⟨hs, hinv⟩
  | cons o rest ih =>
    intro db hs hinv
    unfold refreshAllGo
    by_cases h : fails o.id
    · rw [if_pos (by simpa using h)]
      exact ⟨hs, hinv⟩
    · rw [if_neg (by simpa using h)]
      exact ih _ (scoresValid_updateOfficialRating o.id hs)
        (ratingInvariant_updateOfficialRating o.id hs hinv)

/-! ### The claims -/

/-- C1 (amended): `refreshAllOfficialRatings` iterates only the first page
of officials (default pagination: at most the first 20 rows) in order, and
the first per-official failure aborts the batch — the loop is equivalent to
folding the single-official recompute over the longest failure-free prefix
of that page, with a success flag that is true only when no official of the
page failed.  Officials after the first failure (and beyond the first 20)
are never recomputed in that invocation. -/
theorem claim_C1_amended (fails : Nat → Bool) (db : DB) :
    refreshAllOfficialRatings fails db
      = (((getOfficials db).1.takeWhile (fun o => !fails o.id)).foldl
           (fun d o => updateOfficialRating d o.id) db,
         (getOfficials db).1.all (fun o => !fails o.id)) := by
  unfold refreshAllOfficialRatings
  generalize (getOfficials db).1 = l
  induction l generalizing db with
  | nil => rfl
  | cons o rest ih =>
    unfold refreshAllGo
    by_cases h : fails o.id
    · rw [if_pos (by simpa using h)]
      simp [List.takeWhile_cons, List.all_cons, h]
    · rw [if_neg (by simpa using h)]
      simp [List.takeWhile_cons, List.all_cons, h, ih]

/-- C1 (counterexample): with officials {1, 2} where official 1's recompute
fails, the batch aborts (flag `false`) and official 2 keeps its stale cached
rating, whereas with no failure official 2 is recomputed to 0 — so the
result persisted for official 2 does depend on official 1's failure, and
the batch does not attempt every official.  Moreover with 21 officials and
no failures at all, official 21 is never recomputed (default page size 20),
so the recompute is not even attempted for every official in the store. -/
theorem claim_C1_counterexample :
    (refreshAllOfficialRatings (fun i => i == 1) dbC1).2 = false
    ∧ getOfficialById (refreshAllOfficialRatings (fun i => i == 1) dbC1).1 2
        = some (sampleOfficial 2 5 1)
    ∧ getOfficialById (refreshAllOfficialRatings (fun _ => false) dbC1).1 2
        = some (sampleOfficial 2 0 0)
    ∧ getOfficialById (refreshAllOfficialRatings (fun _ => false) dbC1b).1 21
        = some (sampleOfficial 21 5 1)
    ∧ getReviewsForOfficial dbC1b 21 = [] := by
  refine ⟨rfl, rfl, rfl, ?_, rfl⟩
  decide

/-- C2 (amended): `deleteUser` deletes exactly the user's reviews and the
user row, and `deleteEvent` deletes exactly the event's assignment rows,
team links, reviews and the event row; neither triggers any rating refresh
— in particular the `officials` table (with its cached `averageRating` and
`totalReviews`) is completely unchanged by both operations, so a rating may
remain stale until some later recompute. -/
theorem claim_C2_amended (db : DB) (userId eventId : Nat) :
    ((deleteUser db userId).officials = db.officials
      ∧ (deleteUser db userId).reviews
          = db.reviews.filter (fun r => r.userId != userId)
      ∧ (deleteUser db userId).users
          = db.users.filter (fun u => u.id != userId)
      ∧ (deleteUser db userId).events = db.events
      ∧ (deleteUser db userId).eventOfficials = db.eventOfficials
      ∧ (deleteUser db userId).eventTeams = db.eventTeams)
    ∧ ((deleteEvent db eventId).officials = db.officials
      ∧ (deleteEvent db eventId).reviews
          = db.reviews.filter (fun r => r.eventId != eventId)
      ∧ (deleteEvent db eventId).users = db.users
      ∧ (deleteEvent db eventId).events
          = db.events.filter (fun e => e.id != eventId)
      ∧ (deleteEvent db eventId).eventOfficials
          = db.eventOfficials.filter (fun eo => eo.eventId != eventId)
      ∧ (deleteEvent db eventId).eventTeams
          = db.eventTeams.filter (fun et => et.eventId != eventId)) :=
  ⟨⟨rfl, rfl, rfl, rfl, rfl, rfl⟩, ⟨rfl, rfl, rfl, rfl, rfl, rfl⟩⟩

/-- C2 (counterexample): in a state where official 1's only review was
written by user 1 at event 1, `deleteUser 1` removes the review but leaves
the official's persisted `averageRating` at 3 — still reflecting the
deleted user's review — while a recompute would persist 0; the state after
`deleteUser` is not a fixed point of the global refresh, so no global
refresh was triggered.  The same holds for `deleteEvent`. -/
theorem claim_C2_counterexample :
    (getOfficialById (deleteUser dbC2 1) 1).map Official.averageRating
        = some 3
    ∧ (getOfficialById (updateOfficialRating (deleteUser dbC2 1) 1) 1).map
          Official.averageRating = some 0
    ∧ (getOfficialById (deleteEvent dbC2 1) 1).map Official.averageRating
        = some 3
    ∧ (getOfficialById (updateOfficialRating (deleteEvent dbC2 1) 1) 1).map
          Official.averageRating = some 0
    ∧ deleteUser dbC2 1
        ≠ (refreshAllOfficialRatings (fun _ => false) (deleteUser dbC2 1)).1
    := by
  refine ⟨rfl, rfl, rfl, rfl, ?_⟩
  decide

theorem reviewCount_updateOfficialRating (db : DB) (id officialId : Nat) :
    reviewCount (updateOfficialRating db id) officialId
      = reviewCount db officialId := rfl

/-- C3: for an official whose joined (valid) review set is nonempty — a
review row counts only if a matching user row and event row still exist —
each of the six category averages is the category's score sum over those
reviews divided by their count, rounded half-up (`jsRound s c`, which
equals `⌊s/c + 1/2⌋`), and the persisted `averageRating` is the rounded
mean of the six already-rounded category averages (two-stage rounding),
persisted together with `totalReviews = count` on the official row. -/
theorem claim_C3 (db : DB) (officialId : Nat)
    (h : getReviewsForOfficial db officialId ≠ []) :
    ((calculateCategoryAverages db officialId).mechanics
        = jsRound (categorySum db officialId Review.mechanics)
            (reviewCount db officialId)
      ∧ (calculateCategoryAverages db officialId).professionalism
          = jsRound (categorySum db officialId Review.professionalism)
              (reviewCount db officialId)
      ∧ (calculateCategoryAverages db officialId).positioning
          = jsRound (categorySum db officialId Review.positioning)
              (reviewCount db officialId)
      ∧ (calculateCategoryAverages db officialId).stalling
          = jsRound (categorySum db officialId Review.stalling)
              (reviewCount db officialId)
      ∧ (calculateCategoryAverages db officialId).consistency
          = jsRound (categorySum db officialId Review.consistency)
              (reviewCount db officialId)
      ∧ (calculateCategoryAverages db officialId).appearance
          = jsRound (categorySum db officialId Review.appearance)
              (reviewCount db officialId))
    ∧ (calculateCategoryAverages db officialId).overall
        = jsRound ((calculateCategoryAverages db officialId).mechanics
            + (calculateCategoryAverages db officialId).professionalism
            + (calculateCategoryAverages db officialId).positioning
            + (calculateCategoryAverages db officialId).stalling
            + (calculateCategoryAverages db officialId).consistency
            + (calculateCategoryAverages db officialId).appearance) 6
    ∧ (∀ s c : Nat, 0 < c →
        jsRound s c = ⌊((s : ℚ) / (c : ℚ) + 1 / 2)⌋₊)
    ∧ updateOfficialRating db officialId
        = { db with
            officials := db.officials.map
              (setRating officialId
                ((calculateCategoryAverages db officialId).overall)
                (reviewCount db officialId)) } := by
  refine ⟨?_, ?_, fun s c hc => jsRound_eq_floor s c hc,
    updateOfficialRating_eq db officialId⟩
  · rw [calculateCategoryAverages_of_nonempty db officialId h]
    exact ⟨rfl, rfl, rfl, rfl, rfl, rfl⟩
  · rw [calculateCategoryAverages_of_nonempty db officialId h]

/-- C3 (witness): the official of `dbW` with one review (4,4,4,4,4,5) has
rounded category averages {4,4,4,4,4,5} and two-stage overall
`round(25/6) = 4`. -/
theorem claim_C3_witness :
    getReviewsForOfficial dbW 1 ≠ []
    ∧ (calculateCategoryAverages dbW 1).overall
        = jsRound ((calculateCategoryAverages dbW 1).mechanics
            + (calculateCategoryAverages dbW 1).professionalism
            + (calculateCategoryAverages dbW 1).positioning
            + (calculateCategoryAverages dbW 1).stalling
            + (calculateCategoryAverages dbW 1).consistency
            + (calculateCategoryAverages dbW 1).appearance) 6
    ∧ calculateCategoryAverages dbW 1 = ⟨4, 4, 4, 4, 4, 5, 4⟩ :=
  ⟨by decide, (claim_C3 dbW 1 (by decide)).2.1, by decide⟩

/-- C4: `createReview` checks its preconditions in order — an existing
review for the (userId, officialId, eventId) triple yields the
duplicate-review error even when the assignment precondition also fails,
and only when no duplicate exists does a missing official-assignment row
yield the not-assigned error — and in both failure cases the returned
state is exactly the input state: no review row is written and the
official's cached `averageRating`/`totalReviews` are untouched. -/
theorem claim_C4 (db : DB) (rv : InsertReview) (now newId : Nat) :
    (0 < (db.reviews.filter (fun r =>
          r.userId == rv.userId && r.officialId == rv.officialId
            && r.eventId == rv.eventId)).length →
      createReview db rv now newId = (db, .error .duplicateReview))
    ∧ ((db.reviews.filter (fun r =>
          r.userId == rv.userId && r.officialId == rv.officialId
            && r.eventId == rv.eventId)).length = 0 →
        (db.eventOfficials.filter (fun eo =>
          eo.officialId == rv.officialId
            && eo.eventId == rv.eventId)).length = 0 →
        createReview db rv now newId = (db, .error .officialNotAssigned)) := by
  constructor
  · intro h1
    unfold createReview
    rw [if_pos h1]
  · intro h1 h2
    unfold createReview
    rw [if_neg (by omega), if_pos h2]

/-- C4 (witness): in `dbW4` user 1 already reviewed official 1 at event 1
AND no assignment row exists, and the submission fails with the
duplicate-review error (checked first), leaving the state unchanged. -/
theorem claim_C4_witness :
    0 < (dbW4.reviews.filter (fun r =>
        r.userId == inputW4.userId && r.officialId == inputW4.officialId
          && r.eventId == inputW4.eventId)).length
    ∧ (dbW4.eventOfficials.filter (fun eo =>
        eo.officialId == inputW4.officialId
          && eo.eventId == inputW4.eventId)).length = 0
    ∧ createReview dbW4 inputW4 0 2 = (dbW4, .error .duplicateReview) :=
  ⟨by decide, by decide, (claim_C4 dbW4 inputW4 0 2).1 (by decide)⟩

/-- C5: `deleteReview` fails with the review-not-found error and leaves the
state unchanged when no review row has the given id; when one exists it
removes exactly the rows with that id and re-aggregates the affected
official, whose persisted `averageRating`/`totalReviews` afterwards equal
what a fresh recompute over the remaining reviews alone produces. -/
theorem claim_C5 (db : DB) (id : Nat) :
    (db.reviews.find? (fun r => r.id == id) = none →
      deleteReview db id = (db, .error .reviewNotFound))
    ∧ (∀ rv, db.reviews.find? (fun r => r.id == id) = some rv →
        (deleteReview db id).2 = .ok ()
        ∧ (deleteReview db id).1
            = updateOfficialRating
                { db with reviews := db.reviews.filter (fun r => r.id != id) }
                rv.officialId
        ∧ getOfficialById (deleteReview db id).1 rv.officialId
            = (getOfficialById db rv.officialId).map (fun o =>
                { o with
                  averageRating :=
                    (calculateCategoryAverages
                      { db with
                        reviews := db.reviews.filter (fun r => r.id != id) }
                      rv.officialId).overall
                  totalReviews :=
                    reviewCount
                      { db with
                        reviews := db.reviews.filter (fun r => r.id != id) }
                      rv.officialId })) := by
  constructor
  · intro h
    unfold deleteReview
    rw [h]
  · intro rv h
    unfold deleteReview
    rw [h]
    exact ⟨rfl, rfl,
      getOfficialById_updateOfficialRating
        { db with reviews := db.reviews.filter (fun r => r.id != id) }
        rv.officialId⟩

/-- C5 (witness): deleting review 1 of `dbW` succeeds and the official's
cached fields become the fresh recompute over the (empty) remainder. -/
theorem claim_C5_witness :
    dbW.reviews.find? (fun r => r.id == 1)
        = some (sampleReview 1 1 1 1 4 4 4 4 4 5)
    ∧ (deleteReview dbW 1).2 = .ok ()
    ∧ (deleteReview dbW 1).1
        = updateOfficialRating
            { dbW with reviews := dbW.reviews.filter (fun r => r.id != 1) } 1 := by
  have h := (claim_C5 dbW 1).2 (sampleReview 1 1 1 1 4 4 4 4 4 5) (by decide)
  exact ⟨by decide, h.1, h.2.1⟩

/-- C6: for an official whose joined (valid) review set is empty — in
particular when every remaining review row of the official lost its user
or event row — the computed category averages and overall are all 0 and
the persisted fields are `averageRating = 0`, `totalReviews = 0`. -/
theorem claim_C6 (db : DB) (officialId : Nat)
    (h : getReviewsForOfficial db officialId = []) :
    calculateCategoryAverages db officialId = ⟨0, 0, 0, 0, 0, 0, 0⟩
    ∧ updateOfficialRating db officialId
        = { db with
            officials := db.officials.map (setRating officialId 0 0) } := by
  have hc : reviewCount db officialId = 0 := by
    unfold reviewCount
    rw [h]
    rfl
  refine ⟨calculateCategoryAverages_of_empty db officialId h, ?_⟩
  rw [updateOfficialRating_eq db officialId,
    calculateCategoryAverages_of_empty db officialId h, hc]

/-- C6 (witness): official 1 of `dbW6` has one review row whose user row no
longer exists; the join excludes it, its valid review set is empty, and the
recompute yields the all-zero averages. -/
theorem claim_C6_witness :
    getReviewsForOfficial dbW6 1 = []
    ∧ calculateCategoryAverages dbW6 1 = ⟨0, 0, 0, 0, 0, 0, 0⟩ :=
  ⟨by decide, (claim_C6 dbW6 1 (by decide)).1⟩

/-- C7: the per-official recompute is idempotent — running
`updateOfficialRating` twice in a row with no intervening change to the
underlying reviews leaves exactly the state of running it once (same
persisted `averageRating` and `totalReviews`, same everything else). -/
theorem claim_C7 (db : DB) (id : Nat) :
    updateOfficialRating (updateOfficialRating db id) id
      = updateOfficialRating db id := by
  rw [updateOfficialRating_eq (updateOfficialRating db id) id,
    calculateCategoryAverages_updateOfficialRating db id id,
    reviewCount_updateOfficialRating db id id,
    updateOfficialRating_eq db id]
  refine DB.ext ?_ rfl rfl rfl rfl rfl
  show (db.officials.map (setRating id
        ((calculateCategoryAverages db id).overall)
        (reviewCount db id))).map (setRating id
        ((calculateCategoryAverages db id).overall)
        (reviewCount db id))
      = db.officials.map (setRating id
        ((calculateCategoryAverages db id).overall)
        (reviewCount db id))
  exact map_update_idem db.officials id
    ((calculateCategoryAverages db id).overall) (reviewCount db id)

/-- C8: `reportReview` sets `isReported := true` on the review row with the
given id and changes nothing else — all other tables (including the
official's cached `averageRating`/`totalReviews`) are untouched and every
other field of every review is preserved — and reported reviews still count
toward all subsequent aggregation: the computed category averages, the
review count, and the officials table produced by a subsequent
per-official recompute are identical with and without the report. -/
theorem claim_C8 (db : DB) (rid : Nat) :
    (reportReview db rid).officials = db.officials
    ∧ (reportReview db rid).users = db.users
    ∧ (reportReview db rid).events = db.events
    ∧ (reportReview db rid).eventOfficials = db.eventOfficials
    ∧ (reportReview db rid).eventTeams = db.eventTeams
    ∧ (reportReview db rid).reviews
        = db.reviews.map (fun r =>
            if r.id == rid then { r with isReported := true } else r)
    ∧ (∀ officialId,
        calculateCategoryAverages (reportReview db rid) officialId
          = calculateCategoryAverages db officialId)
    ∧ (∀ officialId,
        reviewCount (reportReview db rid) officialId
          = reviewCount db officialId)
    ∧ (∀ officialId,
        (updateOfficialRating (reportReview db rid) officialId).officials
          = (updateOfficialRating db officialId).officials) := by
  refine ⟨rfl, rfl, rfl, rfl, rfl, rfl,
    fun officialId => calculateCategoryAverages_reportReview db rid officialId,
    fun officialId => reviewCount_reportReview db rid officialId,
    fun officialId => ?_⟩
  rw [updateOfficialRating_eq (reportReview db rid) officialId,
    updateOfficialRating_eq db officialId,
    calculateCategoryAverages_reportReview db rid officialId,
    reviewCount_reportReview db rid officialId]
  rfl

/-- C9: assuming every stored review (and every submitted review) carries
category scores in {1,…,5}, each subsystem operation preserves the
invariant that every official's persisted `averageRating` is at most 5
(with `averageRating ≥ 0` and `totalReviews ≥ 0` holding by the `Nat`
type of the fields). -/
theorem claim_C9 (db : DB) (hs : ScoresValid db)
    (hinv : RatingInvariant db) :
    (∀ i newId, RatingInvariant (createOfficial db i newId).1)
    ∧ (∀ officialId, RatingInvariant (updateOfficialRating db officialId))
    ∧ (∀ rv now newId, InsertScoresValid rv →
        RatingInvariant (createReview db rv now newId).1)
    ∧ (∀ id, RatingInvariant (deleteReview db id).1)
    ∧ (∀ id, RatingInvariant (reportReview db id))
    ∧ (∀ userId, RatingInvariant (deleteUser db userId))
    ∧ (∀ eventId, RatingInvariant (deleteEvent db eventId))
    ∧ (∀ officialId, RatingInvariant (deleteOfficial db officialId))
    ∧ (∀ fails, RatingInvariant (refreshAllOfficialRatings fails db).1) := by
  refine ⟨?_, ?_, ?_, ?_, ?_, ?_, ?_, ?_, ?_⟩
  · intro i newId o ho
    rcases List.mem_append.mp ho with h | h
    · exact hinv o h
    · rw [List.mem_singleton.mp h]
      exact Nat.zero_le 5
  · exact fun officialId =>
      ratingInvariant_updateOfficialRating officialId hs hinv
  · intro rv now newId hrv
    simp only [createReview]
    split
    · exact hinv
    · split
      · exact hinv
      · apply ratingInvariant_updateOfficialRating
        · intro r hr
          rcases List.mem_append.mp hr with h | h
          · exact hs r h
          · rw [List.mem_singleton.mp h]
            exact hrv
        · exact hinv
  · intro id
    unfold deleteReview
    cases hfind : db.reviews.find? (fun r => r.id == id) with
    | none => exact hinv
    | some rv =>
      apply ratingInvariant_updateOfficialRating
      · exact fun r hr => hs r (List.mem_of_mem_filter hr)
      · exact hinv
  · exact fun id => hinv
  · exact fun userId => hinv
  · exact fun eventId => hinv
  · exact fun officialId o ho => hinv o (List.mem_of_mem_filter ho)
  · exact fun fails =>
      (refreshAllGo_preserves fails (getOfficials db).1 db hs hinv).2

/-- C9 (witness): the invariant holds and is preserved on `dbW`. -/
theorem claim_C9_witness :
    ScoresValid dbW ∧ RatingInvariant dbW
    ∧ RatingInvariant (updateOfficialRating dbW 1) := by
  have h := claim_C9 dbW (by decide) (by decide)
  exact ⟨by decide, by decide, h.2.1 1⟩

/-- C10: assuming all stored scores lie in {1,…,5}, an official with at
least one valid (joined) review gets every rounded category average and
the overall in [1,5]; consequently the `averageRating` persisted by a
recompute is 0 exactly when the official's valid review set is empty, so a
stored 0 unambiguously means unrated. -/
theorem claim_C10 (db : DB) (officialId : Nat) (hs : ScoresValid db) :
    (getReviewsForOfficial db officialId ≠ [] →
      (1 ≤ (calculateCategoryAverages db officialId).mechanics
        ∧ (calculateCategoryAverages db officialId).mechanics ≤ 5)
      ∧ (1 ≤ (calculateCategoryAverages db officialId).professionalism
        ∧ (calculateCategoryAverages db officialId).professionalism ≤ 5)
      ∧ (1 ≤ (calculateCategoryAverages db officialId).positioning
        ∧ (calculateCategoryAverages db officialId).positioning ≤ 5)
      ∧ (1 ≤ (calculateCategoryAverages db officialId).stalling
        ∧ (calculateCategoryAverages db officialId).stalling ≤ 5)
      ∧ (1 ≤ (calculateCategoryAverages db officialId).consistency
        ∧ (calculateCategoryAverages db officialId).consistency ≤ 5)
      ∧ (1 ≤ (calculateCategoryAverages db officialId).appearance
        ∧ (calculateCategoryAverages db officialId).appearance ≤ 5)
      ∧ (1 ≤ (calculateCategoryAverages db officialId).overall
        ∧ (calculateCategoryAverages db officialId).overall ≤ 5))
    ∧ (∀ o', getOfficialById (updateOfficialRating db officialId) officialId
          = some o' →
        (o'.averageRating = 0 ↔ getReviewsForOfficial db officialId = [])) := by
  constructor
  · exact fun hne => calculateCategoryAverages_bounds db officialId hs hne
  · intro o' ho'
    rw [getOfficialById_updateOfficialRating db officialId] at ho'
    cases hopt : getOfficialById db officialId with
    | none => rw [hopt] at ho'; cases ho'
    | some o =>
      rw [hopt] at ho'
      have ho'' :
          { o with
            averageRating := (calculateCategoryAverages db officialId).overall
            totalReviews := reviewCount db officialId } = o' := by
        simpa using ho'
      rw [← ho'']
      constructor
      · intro h0
        by_contra hne
        have hb :=
          ((calculateCategoryAverages_bounds db officialId hs hne).2.2.2.2.2.2).1
        simp only at h0
        omega
      · intro hemp
        simp only [calculateCategoryAverages_of_empty db officialId hemp]

/-- C10 (witness): on `dbW` (one valid review) the overall is in [1,5]. -/
theorem claim_C10_witness :
    ScoresValid dbW ∧ getReviewsForOfficial dbW 1 ≠ []
    ∧ (1 ≤ (calculateCategoryAverages dbW 1).overall
        ∧ (calculateCategoryAverages dbW 1).overall ≤ 5) := by
  have h := claim_C10 dbW 1 (by decide)
  exact ⟨by decide, by decide, (h.1 (by decide)).2.2.2.2.2.2⟩

end RateMyOfficial
